import Mathlib

/-!
Verification development for the `target-mssql` Singer target
(`src/target_mssql/connector.py`, `src/target_mssql/sinks.py`).

The Python code is shallowly embedded: the JSON-Schema property dicts that
`to_sql_type` / `_jsonschema_type_check` inspect become a Lean structure,
the SQLAlchemy type objects become an inductive `SQLType`, and the stateful
sink methods (`bulk_insert_records`, `merge_upsert_from_table`) become pure
functions that return the list of SQL statements they execute, parameterised
by whether the fallible DML execution succeeds.
-/

namespace TargetMssql

/-- The `type` entry of a JSON-Schema property dict: absent, a single string
tag, or a list of alternative tags (the code checks
`isinstance(jsonschema_type["type"], (list, tuple))`). -/
inductive JsonType where
  | absent
  | single (t : String)
  | many (ts : List String)
deriving DecidableEq, Repr

/-- A JSON-Schema property dict as inspected by `_jsonschema_type_check` and
`to_sql_type`: the `type` entry, the `anyOf` list (the code compares its
elements directly against the requested type strings, so only string
elements can ever match; they are modelled as such), the `format` hint and
`maxLength`.  Scalar record values elsewhere are modelled opaquely as
strings. -/
structure JsonSchemaType where
  type : JsonType
  anyOf : List String
  format : Option String
  maxLength : Option Nat
deriving DecidableEq, Repr

/-- Embedding of `mssqlConnector._jsonschema_type_check`
(`connector.py:228-248`): the `type` entry matches as a single tag or as any
member of a tag list, and afterwards the `anyOf` list is scanned for any of
the requested types. -/
def jsonschema_type_check (jsonschema_type : JsonSchemaType)
    (type_check : List String) : Bool :=
  (match jsonschema_type.type with
   | .single t => type_check.contains t
   | .many ts => ts.any (fun t => type_check.contains t)
   | .absent => false)
  || jsonschema_type.anyOf.any (fun t => type_check.contains t)

/-- Whether the first character list is an initial segment of the second. -/
def charsPrefixEq : List Char → List Char → Bool
  | [], _ => true
  | _ :: _, [] => false
  | a :: as, b :: bs => a == b && charsPrefixEq as bs

/-- Python's substring operator `needle in hay`, used verbatim by the code in
`if datelike_type in "time"` (`connector.py:264`). -/
def pyInStr (needle hay : String) : Bool :=
  (List.range (hay.toList.length + 1)).any fun i =>
    charsPrefixEq needle.toList (hay.toList.drop i)

/-- Modelled from the spec: `get_datelike_property_type` is imported from
`singer_sdk.helpers._typing` and is not under `src/`.  Per the spec a
property carries an "optional format hint (date, date-time, time)" and the
string branch maps `date-time` to a timestamp, `time` to a time-of-day and
`date` to a calendar date; a schema "with no format hint" yields none. -/
def get_datelike_property_type (jsonschema_type : JsonSchemaType) :
    Option String :=
  match jsonschema_type.format with
  | some f =>
      if f = "date-time" || f = "time" || f = "date" then some f else none
  | none => none

/-- The closed set of SQLAlchemy type objects that the connector produces or
compares.  `NVarchar n` is `mssql.NVARCHAR(n)` (wide unicode text),
`Varchar n` is `sqlalchemy.types.VARCHAR(n)` / `mssql.VARCHAR(n)`,
`Numeric p s` is `sqlalchemy.types.NUMERIC(p, s)`, the rest are the
date/time types and `INTEGER`.  `str()` of these SQLAlchemy objects renders
each constructor distinctly (`NVARCHAR(2000)`, `VARCHAR(255)`, `INTEGER`,
`NUMERIC(22, 16)`, `DATETIME`, `TIME`, `DATE`), so the code's
`str(a) == str(b)` comparisons coincide with structural equality here. -/
inductive SQLType where
  | NVarchar (n : Nat)
  | Varchar (n : Nat)
  | Integer
  | Numeric (p s : Nat)
  | Datetime
  | Time
  | Date
deriving DecidableEq, Repr

/-- Embedding of `mssqlConnector.to_sql_type` (`connector.py:252-285`).
Branch order is the source's: string (with the date-like sub-branches,
including the Python substring test `datelike_type in "time"`), then
integer, number, boolean, object, array, and the final `mssql.NVARCHAR(2000)`
fallback.  The `maxLength` read at `connector.py:269` is bound and ignored
exactly as in the source. -/
def to_sql_type (jsonschema_type : JsonSchemaType) : SQLType :=
  if jsonschema_type_check jsonschema_type ["string"] then
    match get_datelike_property_type jsonschema_type with
    | some datelike_type =>
        if datelike_type = "date-time" then SQLType.Datetime
        else if pyInStr datelike_type "time" then SQLType.Time
        else if datelike_type = "date" then SQLType.Date
        else
          let _maxlength := jsonschema_type.maxLength
          SQLType.NVarchar 2000
    | none =>
        let _maxlength := jsonschema_type.maxLength
        SQLType.NVarchar 2000
  else if jsonschema_type_check jsonschema_type ["integer"] then
    SQLType.Integer
  else if jsonschema_type_check jsonschema_type ["number"] then
    SQLType.Numeric 22 16
  else if jsonschema_type_check jsonschema_type ["boolean"] then
    SQLType.Varchar 2000
  else if jsonschema_type_check jsonschema_type ["object"] then
    SQLType.NVarchar 2000
  else if jsonschema_type_check jsonschema_type ["array"] then
    SQLType.NVarchar 2000
  else
    SQLType.NVarchar 2000

/-- Modelled from the spec: `merge_sql_types` is inherited from the
`singer_sdk` `SQLConnector` base class and is not under `src/`.  Per the spec
it computes "the least-common-supertype via the SQLType compatibility order
(wider numeric absorbs narrower, any absorbs into text)": text types join by
taking the larger width (unicode text absorbing plain text), text absorbs any
non-text type, the high-precision decimal absorbs the integer, equal types
join to themselves, and otherwise-incomparable types fall back to the wide
text type. -/
def merge_sql_types : SQLType → SQLType → SQLType
  | .NVarchar n, .NVarchar m => .NVarchar (max n m)
  | .NVarchar n, .Varchar m => .NVarchar (max n m)
  | .Varchar n, .NVarchar m => .NVarchar (max n m)
  | .Varchar n, .Varchar m => .Varchar (max n m)
  | .NVarchar n, _ => .NVarchar n
  | _, .NVarchar m => .NVarchar m
  | .Varchar n, _ => .Varchar n
  | _, .Varchar m => .Varchar m
  | .Numeric p s, .Numeric q t => .Numeric (max p q) (max s t)
  | .Numeric p s, .Integer => .Numeric p s
  | .Integer, .Numeric q t => .Numeric q t
  | .Integer, .Integer => .Integer
  | .Datetime, .Datetime => .Datetime
  | .Time, .Time => .Time
  | .Date, .Date => .Date
  | _, _ => .NVarchar 2000

/-- The SQLType compatibility order of the spec: `absorbs a b` means `a` can
losslessly represent `b`'s domain.  Text absorbs any type (wider text
absorbing narrower, unicode text absorbing plain text of no greater width),
the decimal absorbs the integer, and every type absorbs itself. -/
def absorbs : SQLType → SQLType → Bool
  | .NVarchar n, .NVarchar m => m ≤ n
  | .NVarchar n, .Varchar m => m ≤ n
  | .NVarchar _, _ => true
  | .Varchar _, .NVarchar _ => false
  | .Varchar n, .Varchar m => m ≤ n
  | .Varchar _, _ => true
  | .Numeric p s, .Numeric q t => q ≤ p && t ≤ s
  | .Numeric _ _, .Integer => true
  | .Integer, .Integer => true
  | .Datetime, .Datetime => true
  | .Time, .Time => true
  | .Date, .Date => true
  | _, _ => false

/-- `mssqlConnector.allow_column_alter` (`connector.py:19`), hard-coded
`True`. -/
def allow_column_alter : Bool := true

/-- Embedding of `mssqlConnector._adapt_column_type` (`connector.py:130-177`).
Returns `.ok none` when no DDL is issued (the desired type equals the live
type, or the merged compatible type already equals the live type),
`.ok (some t)` when `ALTER TABLE ... ALTER COLUMN ... t` is executed, and
`.error` for the `NotImplementedError` raised when column altering is
disabled.  The `str(..) == str(..)` comparisons of the source are structural
equality here (see `SQLType`); the ALTER statement's own execution is
modelled as succeeding (its failure path merely wraps the error). -/
def adapt_column_type (current_type sql_type : SQLType) :
    Except String (Option SQLType) :=
  if sql_type = current_type then Except.ok none
  else
    let compatible_sql_type := merge_sql_types current_type sql_type
    if compatible_sql_type = current_type then Except.ok none
    else if !allow_column_alter then
      Except.error "Altering columns is not supported."
    else Except.ok (some compatible_sql_type)

/-- The live column type after one `_adapt_column_type` call: unchanged when
no DDL was issued, otherwise the type the column was altered to. -/
def adaptedLiveType (current_type sql_type : SQLType) : SQLType :=
  match adapt_column_type current_type sql_type with
  | Except.ok (some t) => t
  | _ => current_type

/-- A column of the table DDL: name, SQL type, primary-key flag
(`sqlalchemy.Column(property_name, columntype, primary_key=is_primary_key)`,
`connector.py:119-125`). -/
structure ColumnSpec where
  name : String
  columntype : SQLType
  primaryKey : Bool
deriving DecidableEq, Repr

/-- A schema dict's `properties` entry: the ordered property map. -/
structure Schema where
  properties : List (String × JsonSchemaType)
deriving DecidableEq, Repr

/-- `isinstance(columntype, sqlalchemy.types.VARCHAR)` (`connector.py:116`).
In SQLAlchemy's type hierarchy `VARCHAR` subclasses `String` while
`NVARCHAR` subclasses `Unicode` (itself a `String` subclass): `NVARCHAR` is
a sibling of `VARCHAR`, not a subclass, and the mssql dialect re-exports
both from `sqlalchemy.types` unchanged.  So the check is true exactly for
`VARCHAR` instances; `mssql.NVARCHAR(2000)` is not one. -/
def isinstance_VARCHAR : SQLType → Bool
  | .Varchar _ => true
  | _ => false

/-- Embedding of the column-list construction of
`mssqlConnector.create_empty_table` (`connector.py:110-125`): each property
is mapped through `to_sql_type`, and a column that is both an
`isinstance(.., VARCHAR)` type and a primary key is replaced by
`VARCHAR(255)` (the source's 900-byte-key cap); the column keeps its
primary-key flag.  Table creation itself (`sqlalchemy.Table` plus
`meta.create_all`) is the external side effect and adds nothing to the
column list. -/
def create_empty_table_columns (properties : List (String × JsonSchemaType))
    (primary_keys : List String) : List ColumnSpec :=
  properties.map fun pj =>
    let is_primary_key := primary_keys.contains pj.1
    let columntype := to_sql_type pj.2
    let columntype :=
      if isinstance_VARCHAR columntype && is_primary_key then
        SQLType.Varchar 255
      else columntype
    ⟨pj.1, columntype, is_primary_key⟩

/-- An input record: a mapping from column name to a scalar value (values
modelled opaquely as strings); `record.get(name)` is `List.lookup`. -/
abbrev Record := List (String × String)

/-- The SQL statements the sink executes, with the components the source
builds by string interpolation carried structurally: the fixed template text
around them (`MERGE INTO .. AS target USING .. AS temp ON .. WHEN MATCHED
THEN UPDATE SET .. WHEN NOT MATCHED THEN INSERT (..) VALUES (..)`) is part
of the constructor. -/
inductive Stmt where
  | setIdentityInsertOn (table : String)
  | setIdentityInsertOff (table : String)
  | insertInto (table : String) (rows : List (List (String × Option String)))
  | mergeInto (target source onCondition updateSet insertCols insertVals :
      String)
  | dropTable (table : String)
  | commit
deriving DecidableEq, Repr

/-- Embedding of `mssqlSink.column_representation` (`sinks.py:111-125`): one
column per conformed property, typed by `to_sql_type`.  The `singer_sdk`
`conform_schema` name-conforming pass is not under `src/`; per the spec the
conformer "iterates the schema's property map in its given order", so it is
the identity on the property list here. -/
def column_representation (schema : Schema) : List (String × SQLType) :=
  schema.properties.map fun pj => (pj.1, to_sql_type pj.2)

/-- The per-record projection of `bulk_insert_records` (`sinks.py:86-93`):
`insert_record[column.name] = record.get(column.name)`, one entry per column
of `column_representation`, `none` when the record lacks the column. -/
def project_record (columns : List (String × SQLType)) (record : Record) :
    List (String × Option String) :=
  columns.map fun c => (c.1, record.lookup c.1)

/-- `primary_key_present` (`sinks.py:77`): hard-coded `True`; the
primary-key detection below it is commented out in the source. -/
def primary_key_present : Bool := true

/-- Embedding of `mssqlSink.bulk_insert_records` (`sinks.py:48-109`) as the
list of statements it executes plus its outcome.  `insert_ok` states whether
the bulk-insert execution at `sinks.py:100` succeeds; the statements are
executed in source order with no exception handling, so on failure the trace
stops at the attempted insert and the exception propagates (`.error`).  On
success the method returns `len(records)` (records are modelled as a list).
-/
def bulk_insert_records (full_table_name : String) (schema : Schema)
    (records : List Record) (insert_ok : Bool) :
    List Stmt × Except Unit (Option Nat) :=
  let columns := column_representation schema
  let insert_records := records.map (project_record columns)
  let pre :=
    if primary_key_present then [Stmt.setIdentityInsertOn full_table_name]
    else []
  if insert_ok then
    (pre ++ [Stmt.insertInto full_table_name insert_records]
        ++ (if primary_key_present then
              [Stmt.setIdentityInsertOff full_table_name]
            else []),
     Except.ok (some records.length))
  else
    (pre ++ [Stmt.insertInto full_table_name insert_records],
     Except.error ())

/-- The join condition of `merge_upsert_from_table` (`sinks.py:188-190`):
`" and ".join([f"temp.{key} = target.{key}" for key in join_keys])`. -/
def join_condition (join_keys : List String) : String :=
  String.intercalate " and "
    (join_keys.map fun key => "temp." ++ key ++ " = target." ++ key)

/-- The merge statement of `merge_upsert_from_table` (`sinks.py:192-202`),
with its four interpolated components built exactly as in the source: the
join condition, the `UPDATE SET` list over non-key properties, and the
`INSERT` column and `VALUES` lists over all properties. -/
def merge_statement (from_table_name to_table_name : String)
    (schema : Schema) (join_keys : List String) : Stmt :=
  Stmt.mergeInto to_table_name from_table_name
    (join_condition join_keys)
    (String.intercalate ", "
      (((schema.properties.map Prod.fst).filter
          (fun key => !join_keys.contains key)).map
        fun key => "target." ++ key ++ " = temp." ++ key))
    (String.intercalate ", " (schema.properties.map Prod.fst))
    (String.intercalate ", "
      (schema.properties.map fun p => "temp." ++ p.1))

/-- Embedding of `mssqlSink.merge_upsert_from_table` (`sinks.py:166-207`) as
the list of statements it executes plus its outcome.  `merge_ok` states
whether the merge execution at `sinks.py:204` succeeds; there is no
exception handling, so on failure the trace stops at the attempted merge and
`DROP TABLE` / `COMMIT` are never reached. -/
def merge_upsert_from_table (from_table_name to_table_name : String)
    (schema : Schema) (join_keys : List String) (merge_ok : Bool) :
    List Stmt × Except Unit (Option Nat) :=
  let m := merge_statement from_table_name to_table_name schema join_keys
  if merge_ok then
    ([m, Stmt.dropTable from_table_name, Stmt.commit], Except.ok none)
  else
    ([m], Except.error ())

/-- The merged type is stable under re-merging the desired type: merging the
least-common-supertype with the same desired type changes nothing. -/
theorem merge_sql_types_absorb (a b : SQLType) :
    merge_sql_types (merge_sql_types a b) b = merge_sql_types a b := by
  rcases a <;> rcases b <;> simp [merge_sql_types]

/-- The merged type absorbs the first argument (the live column type): the
least-common-supertype is an upper bound of the current type. -/
theorem merge_sql_types_upper_left (a b : SQLType) :
    absorbs (merge_sql_types a b) a = true := by
  rcases a <;> rcases b <;> simp [merge_sql_types, absorbs]

/-- The merged type absorbs the second argument (the desired type). -/
theorem merge_sql_types_upper_right (a b : SQLType) :
    absorbs (merge_sql_types a b) b = true := by
  rcases a <;> rcases b <;> simp [merge_sql_types, absorbs]

/-- When the live type already absorbs the desired type, the merge returns
the live type unchanged. -/
theorem absorbs_merge_eq (a b : SQLType) (h : absorbs a b = true) :
    merge_sql_types a b = a := by
  rcases a <;> rcases b <;> simp_all [merge_sql_types, absorbs]

/-- C2: for every existing column whose live type differs from the desired
type, `_adapt_column_type` computes the least-common-supertype of the two
via `merge_sql_types`; if that supertype equals the live type it issues no
DDL, otherwise it alters the column to the supertype — which always absorbs
the live type, so an existing column is never altered to a strictly
narrower desired type.  In particular an existing wide-text column with
desired type integer gets no DDL, while an integer column with desired type
wide text is widened to wide text. -/
theorem C2_adapt_never_narrows (current_type sql_type : SQLType)
    (h : sql_type ≠ current_type) :
    (merge_sql_types current_type sql_type = current_type →
      adapt_column_type current_type sql_type = Except.ok none) ∧
    (merge_sql_types current_type sql_type ≠ current_type →
      adapt_column_type current_type sql_type =
        Except.ok (some (merge_sql_types current_type sql_type)) ∧
      absorbs (merge_sql_types current_type sql_type) current_type = true) ∧
    adapt_column_type (SQLType.NVarchar 2000) SQLType.Integer =
      Except.ok none ∧
    adapt_column_type SQLType.Integer (SQLType.NVarchar 2000) =
      Except.ok (some (SQLType.NVarchar 2000)) := by
  refine ⟨fun h2 => ?_, fun h2 => ⟨?_, merge_sql_types_upper_left _ _⟩,
    rfl, rfl⟩
  · simp [adapt_column_type, h, h2]
  · simp [adapt_column_type, h, h2, allow_column_alter]

/-- C2 witness: instantiated at a live integer column with desired wide-text
type; the column is widened to the wide-text supertype, which absorbs the
live integer type. -/
theorem C2_adapt_never_narrows_witness :
    adapt_column_type SQLType.Integer (SQLType.NVarchar 2000) =
      Except.ok (some (merge_sql_types SQLType.Integer (SQLType.NVarchar 2000))) ∧
    absorbs (merge_sql_types SQLType.Integer (SQLType.NVarchar 2000))
      SQLType.Integer = true :=
  (C2_adapt_never_narrows SQLType.Integer (SQLType.NVarchar 2000)
    (by decide)).2.1 (by decide)

/-- C8: column reconciliation is idempotent — after one
`_adapt_column_type` call with a desired type, the resulting live type
(unchanged, or altered to the merged supertype) makes a second call with the
same desired type issue no DDL. -/
theorem C8_adapt_idempotent (current_type sql_type : SQLType) :
    adapt_column_type (adaptedLiveType current_type sql_type) sql_type =
      Except.ok none := by
  by_cases h1 : sql_type = current_type
  · simp [adaptedLiveType, adapt_column_type, h1]
  · by_cases h2 : merge_sql_types current_type sql_type = current_type
    · simp [adaptedLiveType, adapt_column_type, h1, h2]
    · by_cases h3 : sql_type = merge_sql_types current_type sql_type
      · simp [adaptedLiveType, adapt_column_type, h1, h2,
          allow_column_alter, ← h3]
      · simp [adaptedLiveType, adapt_column_type, h1, h2, h3,
          allow_column_alter, merge_sql_types_absorb]

/-- A small concrete schema used by the closed counterexample and failing
input theorems: an integer `id` property and a string `name` property. -/
def exampleSchema : Schema :=
  ⟨[("id", ⟨JsonType.single "integer", [], none, none⟩),
    ("name", ⟨JsonType.single "string", [], none, none⟩)]⟩

/-- C1 counterexample: at a concrete table, schema and batch, when the
insert execution raises, the trace of `bulk_insert_records` contains
`SET IDENTITY_INSERT .. ON` but no `SET IDENTITY_INSERT .. OFF` — the
disallowed default state is not restored on the error exit path, refuting
the claim that it is restored on every exit path. -/
theorem C1_off_not_restored_on_failure :
    ((bulk_insert_records "tbl" exampleSchema [[("id", "1"), ("name", "a")]]
        false).1.contains (Stmt.setIdentityInsertOn "tbl") = true) ∧
    ((bulk_insert_records "tbl" exampleSchema [[("id", "1"), ("name", "a")]]
        false).1.contains (Stmt.setIdentityInsertOff "tbl") = false) := by
  decide

/-- C1 (amended): `bulk_insert_records` enables identity insertion before
the insert and restores the disallowed default state only on the success
exit path: when the insert succeeds the final executed statement is
`SET IDENTITY_INSERT .. OFF`, but when the insert execution raises, the
method (which has no exception handling) propagates the error with the
`OFF` statement never executed. -/
theorem C1_identity_restored_only_on_success (full_table_name : String)
    (schema : Schema) (records : List Record) :
    ((bulk_insert_records full_table_name schema records true).1.getLast? =
      some (Stmt.setIdentityInsertOff full_table_name)) ∧
    ((bulk_insert_records full_table_name schema records false).1.contains
      (Stmt.setIdentityInsertOff full_table_name) = false) ∧
    (bulk_insert_records full_table_name schema records false).2 =
      Except.error () := by
  refine ⟨?_, ?_, rfl⟩
  · simp [bulk_insert_records, primary_key_present]
  · simp [bulk_insert_records, primary_key_present]

/-- C3: in `merge_upsert_from_table` the staging table is dropped exactly
when the merge statement succeeds: on success the executed statements are
the merge, `DROP TABLE` on the staging table, and `COMMIT`; on failure only
the attempted merge is executed and no `DROP TABLE` appears — the staging
table is left in place. -/
theorem C3_staging_dropped_iff_merge_succeeds
    (from_table_name to_table_name : String) (schema : Schema)
    (join_keys : List String) :
    ((merge_upsert_from_table from_table_name to_table_name schema join_keys
        true).1 =
      [merge_statement from_table_name to_table_name schema join_keys,
       Stmt.dropTable from_table_name, Stmt.commit]) ∧
    ((merge_upsert_from_table from_table_name to_table_name schema join_keys
        false).1 =
      [merge_statement from_table_name to_table_name schema join_keys]) ∧
    ((merge_upsert_from_table from_table_name to_table_name schema join_keys
        false).1.contains (Stmt.dropTable from_table_name) = false) := by
  refine ⟨rfl, rfl, ?_⟩
  simp [merge_upsert_from_table, merge_statement, List.contains]

/-- C4: at the failing input — a schema whose primary-key property `id` is a
plain string — `create_empty_table` leaves the key column at the wide text
type `NVARCHAR(2000)` (the `isinstance(.., VARCHAR)` guard does not match
SQLAlchemy's `NVARCHAR`), so the claimed narrowing to a 255-unit bound does
not happen; the narrowing fires only for actual `VARCHAR` instances, such as
the boolean mapping. -/
theorem C4_string_pk_not_narrowed :
    (create_empty_table_columns
        [("id", ⟨JsonType.single "string", [], none, none⟩),
         ("name", ⟨JsonType.single "string", [], none, none⟩)] ["id"] =
      [⟨"id", SQLType.NVarchar 2000, true⟩,
       ⟨"name", SQLType.NVarchar 2000, false⟩]) ∧
    (create_empty_table_columns
        [("flag", ⟨JsonType.single "boolean", [], none, none⟩)] ["flag"] =
      [⟨"flag", SQLType.Varchar 255, true⟩]) := by
  decide

/-- C5: `to_sql_type` is total and deterministic — as an embedded pure
function it returns exactly one SQL type for every property schema — and
any input matching none of the six recognized primitive type tags falls
back to the wide variable-length text type `NVARCHAR(2000)`. -/
theorem C5_to_sql_type_total_with_fallback (jsonschema_type : JsonSchemaType) :
    (∃! t : SQLType, to_sql_type jsonschema_type = t) ∧
    ((∀ tag ∈ ["string", "integer", "number", "boolean", "object", "array"],
        jsonschema_type_check jsonschema_type [tag] = false) →
      to_sql_type jsonschema_type = SQLType.NVarchar 2000) := by
  constructor
  · exact ⟨to_sql_type jsonschema_type, rfl, fun y hy => hy.symm⟩
  · intro h
    have hs := h "string" (by simp)
    have hi := h "integer" (by simp)
    have hn := h "number" (by simp)
    have hb := h "boolean" (by simp)
    have ho := h "object" (by simp)
    have ha := h "array" (by simp)
    simp [to_sql_type, hs, hi, hn, hb, ho, ha]

/-- C5 witness: a property schema whose only type tag is `null` matches no
recognized tag and maps to `NVARCHAR(2000)`. -/
theorem C5_to_sql_type_total_with_fallback_witness :
    to_sql_type ⟨JsonType.single "null", [], none, none⟩ =
      SQLType.NVarchar 2000 :=
  (C5_to_sql_type_total_with_fallback
    ⟨JsonType.single "null", [], none, none⟩).2 (by decide)

/-- C6: `_jsonschema_type_check` inspects the `anyOf` list — any requested
type present there makes the check succeed — and consequently a schema whose
`anyOf` contains `integer` (and which does not match the earlier string
branch) is mapped by `to_sql_type` through the integer branch to `INTEGER`,
not through the wide-text fallback. -/
theorem C6_anyOf_membership_checks (jsonschema_type : JsonSchemaType)
    (type_check : List String) (t : String)
    (h1 : t ∈ jsonschema_type.anyOf) (h2 : t ∈ type_check) :
    jsonschema_type_check jsonschema_type type_check = true ∧
    ("integer" ∈ jsonschema_type.anyOf →
      jsonschema_type_check jsonschema_type ["string"] = false →
      to_sql_type jsonschema_type = SQLType.Integer) := by
  constructor
  · simp only [jsonschema_type_check, Bool.or_eq_true, List.any_eq_true]
    exact Or.inr ⟨t, h1, by simpa using h2⟩
  · intro hint hstr
    have hichk : jsonschema_type_check jsonschema_type ["integer"] = true := by
      simp only [jsonschema_type_check, Bool.or_eq_true, List.any_eq_true]
      exact Or.inr ⟨"integer", hint, by simp⟩
    simp [to_sql_type, hstr, hichk]

/-- C6 witness: a schema with no `type` entry and `anyOf` containing
`integer` passes the integer type check and maps to `INTEGER`. -/
theorem C6_anyOf_membership_checks_witness :
    jsonschema_type_check ⟨JsonType.absent, ["integer"], none, none⟩
      ["integer"] = true ∧
    to_sql_type ⟨JsonType.absent, ["integer"], none, none⟩ =
      SQLType.Integer := by
  have h := C6_anyOf_membership_checks
    ⟨JsonType.absent, ["integer"], none, none⟩ ["integer"] "integer"
    (by decide) (by decide)
  exact ⟨h.1, h.2 (by decide) (by decide)⟩

/-- C7: a property schema with type list `["string", "null"]` and no format
hint maps to the same wide text type `NVARCHAR(2000)` as one with the single
type tag `"string"`. -/
theorem C7_nullable_string_maps_like_string :
    to_sql_type ⟨JsonType.many ["string", "null"], [], none, none⟩ =
      to_sql_type ⟨JsonType.single "string", [], none, none⟩ ∧
    to_sql_type ⟨JsonType.many ["string", "null"], [], none, none⟩ =
      SQLType.NVarchar 2000 := by
  decide

/-- C9: at the failing input `join_keys = []`, the generated merge has an
empty join condition — the `ON` clause of the statement is the empty
string, not an always-false predicate forcing inserts — while every
property (keys included) lands in the `UPDATE SET` list; no append-only
special case exists in the code. -/
theorem C9_empty_join_keys_empty_on_clause :
    join_condition [] = "" ∧
    (merge_upsert_from_table "tgt_tmp" "tgt" exampleSchema [] true).1 =
      [Stmt.mergeInto "tgt" "tgt_tmp" ""
        "target.id = temp.id, target.name = temp.name"
        "id, name" "temp.id, temp.name",
       Stmt.dropTable "tgt_tmp", Stmt.commit] := by
  decide

/-- C10: on every call of `bulk_insert_records`, whatever the schema and
records, `SET IDENTITY_INSERT .. ON` is executed first, before the insert
(and `OFF` directly after a successful insert) — the guard
`primary_key_present` is hard-coded `true`, so the toggle is unconditional.
-/
theorem C10_identity_toggle_unconditional (full_table_name : String)
    (schema : Schema) (records : List Record) :
    primary_key_present = true ∧
    ((bulk_insert_records full_table_name schema records true).1 =
      [Stmt.setIdentityInsertOn full_table_name,
       Stmt.insertInto full_table_name
         (records.map (project_record (column_representation schema))),
       Stmt.setIdentityInsertOff full_table_name]) ∧
    ((bulk_insert_records full_table_name schema records false).1 =
      [Stmt.setIdentityInsertOn full_table_name,
       Stmt.insertInto full_table_name
         (records.map (project_record (column_representation schema)))]) := by
  exact ⟨rfl, rfl, rfl⟩

end TargetMssql
